import Mathlib

/-!
Shallow embedding of `src/calculator.js` (crossover calculation utility).

Numbers are modelled over `ℝ` for the filter/L-Pad/Zobel arithmetic (the
source computes with JS doubles; the formulas use π and square roots, so the
exact-real model is the faithful idealisation) and over `ℚ` for
`validateSafety`, whose comparisons and message interpolation involve only
rational arithmetic and decimal rendering.

JavaScript's `toFixed(2)` (round to nearest hundredth and print with exactly
two fractional digits) is modelled at the observation boundary by
`toFixed2 : ℝ → String`; the component records below carry the pre-formatting
(already unit-scaled) numeric values, exactly as computed before `.toFixed(2)`
is applied in the source.
-/

/-- A named electrical part, as pushed into `result.highPass`/`result.lowPass`
by the source; `value` is the unit-scaled numeric value to which the source
applies `.toFixed(2)`. -/
structure Component where
  name : String
  value : ℝ
  unit : String

/-- Result of `calculateCrossover`: `{ highPass: [], lowPass: [] }`. -/
structure CrossoverResult where
  highPass : List Component
  lowPass : List Component

/-- `CROSSOVER_TYPES.BUTTERWORTH_1ST` from the source. -/
def CROSSOVER_TYPES.BUTTERWORTH_1ST : String := "1st Order Butterworth"

/-- `CROSSOVER_TYPES.BUTTERWORTH_2ND` from the source. -/
def CROSSOVER_TYPES.BUTTERWORTH_2ND : String := "2nd Order Butterworth"

/-- `CROSSOVER_TYPES.LINKWITZ_RILEY_2ND` from the source. -/
def CROSSOVER_TYPES.LINKWITZ_RILEY_2ND : String := "2nd Order Linkwitz-Riley"

/-- `CROSSOVER_TYPES.BESSEL_2ND` from the source. -/
def CROSSOVER_TYPES.BESSEL_2ND : String := "2nd Order Bessel"

/-- `CROSSOVER_TYPES.BUTTERWORTH_3RD` from the source. -/
def CROSSOVER_TYPES.BUTTERWORTH_3RD : String := "3rd Order Butterworth"

/-- `CROSSOVER_TYPES.LINKWITZ_RILEY_4TH` from the source. -/
def CROSSOVER_TYPES.LINKWITZ_RILEY_4TH : String := "4th Order Linkwitz-Riley"

/-- The six recognized catalog labels of `CROSSOVER_TYPES`. -/
def recognizedTypes : List String :=
  [CROSSOVER_TYPES.BUTTERWORTH_1ST, CROSSOVER_TYPES.BUTTERWORTH_2ND,
   CROSSOVER_TYPES.LINKWITZ_RILEY_2ND, CROSSOVER_TYPES.BESSEL_2ND,
   CROSSOVER_TYPES.BUTTERWORTH_3RD, CROSSOVER_TYPES.LINKWITZ_RILEY_4TH]

/-- `calculateCrossover(rh, rl, f, type)` from the source.  The JS `switch` on
the `type` string is an equality dispatch with an implicit empty default; each
branch pushes the components in source order.  `value` fields hold the exact
expressions the source computes before `.toFixed(2)`; the `* 1e6` / `* 1e3`
unit scalings are those of the source. -/
noncomputable def calculateCrossover (rh rl f : ℝ) (ctype : String) : CrossoverResult :=
  let omega : ℝ := 2 * Real.pi * f
  if ctype = CROSSOVER_TYPES.BUTTERWORTH_1ST then
    { highPass := [⟨"C1", (1 / (omega * rh)) * 1e6, "uF"⟩],
      lowPass := [⟨"L1", (rl / omega) * 1e3, "mH"⟩] }
  else if ctype = CROSSOVER_TYPES.BUTTERWORTH_2ND then
    let sqrt2 := Real.sqrt 2
    { highPass := [⟨"C1", (1 / (sqrt2 * omega * rh)) * 1e6, "uF"⟩,
                   ⟨"L1", (rh / (sqrt2 * omega)) * 1e3, "mH"⟩],
      lowPass := [⟨"C2", (1 / (sqrt2 * omega * rl)) * 1e6, "uF"⟩,
                  ⟨"L2", (rl / (sqrt2 * omega)) * 1e3, "mH"⟩] }
  else if ctype = CROSSOVER_TYPES.LINKWITZ_RILEY_2ND then
    { highPass := [⟨"C1", (1 / (2 * omega * rh)) * 1e6, "uF"⟩,
                   ⟨"L1", (rh / (0.5 * omega)) * 1e3, "mH"⟩],
      lowPass := [⟨"C2", (1 / (2 * omega * rl)) * 1e6, "uF"⟩,
                  ⟨"L2", (rl / (0.5 * omega)) * 1e3, "mH"⟩] }
  else if ctype = CROSSOVER_TYPES.BESSEL_2ND then
    let sqrt3 := Real.sqrt 3
    { highPass := [⟨"C1", (1 / (sqrt3 * omega * rh)) * 1e6, "uF"⟩,
                   ⟨"L1", ((sqrt3 * rh) / omega) * 1e3, "mH"⟩],
      lowPass := [⟨"C2", (1 / (sqrt3 * omega * rl)) * 1e6, "uF"⟩,
                  ⟨"L2", ((sqrt3 * rl) / omega) * 1e3, "mH"⟩] }
  else if ctype = CROSSOVER_TYPES.BUTTERWORTH_3RD then
    { highPass := [⟨"C1", 1e6 / (1.5 * omega * rh), "uF"⟩,
                   ⟨"L2", 1e3 * (rh / (1.333 * omega)), "mH"⟩,
                   ⟨"C3", 1e6 / (0.5 * omega * rh), "uF"⟩],
      lowPass := [⟨"L1", 1e3 * (1.5 * rl / omega), "mH"⟩,
                  ⟨"C2", 1e6 / (1.333 * omega * rl), "uF"⟩,
                  ⟨"L3", 1e3 * (0.5 * rl / omega), "mH"⟩] }
  else if ctype = CROSSOVER_TYPES.LINKWITZ_RILEY_4TH then
    { highPass := [⟨"C1", 84400 / (f * rh), "uF"⟩,
                   ⟨"C2", 168800 / (f * rh), "uF"⟩,
                   ⟨"L3", 100 * rh / f, "mH"⟩,
                   ⟨"L4", 200 * rh / f, "mH"⟩],
      lowPass := [⟨"L1", 318 * rl / f, "mH"⟩,
                  ⟨"L2", 159 * rl / f, "mH"⟩,
                  ⟨"C3", 212000 / (f * rl), "uF"⟩,
                  ⟨"C4", 106000 / (f * rl), "uF"⟩] }
  else
    { highPass := [], lowPass := [] }

/-- Rendering of a nonnegative number of hundredths as a 2-fractional-digit
decimal string, the shape `toFixed(2)` produces for nonnegative values. -/
def renderFix2 (n : ℤ) : String :=
  let m := n.toNat
  toString (m / 100) ++ "." ++
    (if m % 100 < 10 then "0" ++ toString (m % 100) else toString (m % 100))

/-- Model of JavaScript `x.toFixed(2)` for nonnegative `x`: round `100·x` to
the nearest integer and print with exactly two fractional digits. -/
noncomputable def toFixed2 (x : ℝ) : String :=
  renderFix2 (round (100 * x))

/-- `LPadResult` with the pre-formatting values of `r1` and `r2` (the source
returns `r1.toFixed(2)` / `r2.toFixed(2)`). -/
structure LPadResult where
  r1 : ℝ
  r2 : ℝ

/-- `calculateLPad(rh, db)` from the source: `k = 10^(db/20)`,
`r1 = rh*(k-1)/k`, `r2 = rh/(k-1)`. -/
noncomputable def calculateLPad (rh db : ℝ) : LPadResult :=
  let k : ℝ := (10 : ℝ) ^ (db / 20)
  let r1 := rh * (k - 1) / k
  let r2 := rh / (k - 1)
  { r1 := r1, r2 := r2 }

/-- `ZobelResult` with the pre-formatting values of `rz` and `cz` (the source
returns `rz.toFixed(2)` and `(cz * 1e6).toFixed(2)`; `cz` here is already the
`* 1e6` microfarad-scaled value, mirroring the expression formatted). -/
structure ZobelResult where
  rz : ℝ
  cz : ℝ

/-- `calculateZobel(re, le)` from the source: `rz = 1.25*re`,
`cz = (le/1000)/rz^2`, reported `* 1e6` in microfarads. -/
noncomputable def calculateZobel (re le : ℝ) : ZobelResult :=
  let rz : ℝ := 1.25 * re
  let cz : ℝ := (le / 1000) / rz ^ 2
  { rz := rz, cz := cz * 1e6 }

/-- `ThreeWayResult` of `calculate3Way`. -/
structure ThreeWayResult where
  woofer : List Component
  midrange : List Component
  tweeter : List Component

/-- `calculate3Way(rw, rm, rt, flz, fhz, type)` from the source: the selected
type is used for both crossover points; midrange is the band-pass
concatenation `[...midHP, ...midLP]`. -/
noncomputable def calculate3Way (rw rm rt flz fhz : ℝ) (ctype : String) : ThreeWayResult :=
  let woofer := (calculateCrossover rw rw flz ctype).lowPass
  let tweeter := (calculateCrossover rt rt fhz ctype).highPass
  let midHP := (calculateCrossover rm rm flz ctype).highPass
  let midLP := (calculateCrossover rm rm fhz ctype).lowPass
  { woofer := woofer, midrange := midHP ++ midLP, tweeter := tweeter }

/-- A safety warning `{ type, message }`; the source's field `type` is named
`wtype` here to avoid clashing with the function parameter of the same name. -/
structure Warning where
  wtype : String
  message : String
deriving DecidableEq

/-- Decimal rendering of a number as JS string interpolation produces it;
exact for the integral values the claims exercise (an integral JS number
interpolates as its plain decimal digits). -/
def qRender (q : ℚ) : String :=
  if q.den = 1 then toString q.num else toString q

/-- The interpolated `CRITICAL: ...` hazard message of `validateSafety`. -/
def criticalMessage (f fs : ℚ) : String :=
  "CRITICAL: Crossover frequency (" ++ qRender f ++
    "Hz) is less than 2x Tweeter Fs (" ++ qRender fs ++
    "Hz). This risk damaging the tweeter at high volumes."

/-- The fixed `Caution: ...` warning message of `validateSafety` (the source
template contains no interpolation). -/
def cautionMessage : String :=
  "Caution: Crossover frequency is close to Tweeter resonance. Consider a steeper slope or higher Fc for better longevity."

/-- The interpolated `DANGER: ...` slope hazard message of `validateSafety`. -/
def slopeMessage (f : ℚ) : String :=
  "DANGER: 1st-order slope is very shallow. At " ++ qRender f ++
    "Hz, this provides minimal protection for most tweeters. Use at least 2nd-order or raise Fc."

/-- `validateSafety(rh, rl, f, fs, type)` from the source.  `rh`, `rl` are
accepted and unused, as in the source.  JS truthiness of the number `fs` is
`fs ≠ 0`.  The two pushes (else-if frequency chain, then independent slope
check) are modelled as the concatenation of the two corresponding lists. -/
def validateSafety (rh rl f fs : ℚ) (ctype : String) : List Warning :=
  let _ := rh
  let _ := rl
  (if fs ≠ 0 ∧ f < 2 * fs then
    [⟨"hazard", criticalMessage f fs⟩]
  else if fs ≠ 0 ∧ f < 2.5 * fs then
    [⟨"warning", cautionMessage⟩]
  else []) ++
  (if ctype = CROSSOVER_TYPES.BUTTERWORTH_1ST ∧ f < 3000 then
    [⟨"hazard", slopeMessage f⟩]
  else [])

/-- Substring containment on strings (used to state that a message embeds the
decimal rendering of a numeric input). -/
def strContains (hay needle : String) : Prop :=
  needle.data <:+: hay.data

instance (hay needle : String) : Decidable (strContains hay needle) :=
  inferInstanceAs (Decidable (needle.data <:+: hay.data))

/-- Rounding a quotient by π, bracketed by linear bounds on π. -/
lemma round_div_pi_eq (c : ℝ) (n : ℤ) (h1 : ((n : ℝ) - 1/2) * Real.pi ≤ c)
    (h2 : c < ((n : ℝ) + 1/2) * Real.pi) : round (c / Real.pi) = n := by
  have hpi := Real.pi_pos
  rw [round_eq, Int.floor_eq_iff]
  refine ⟨?_, ?_⟩
  · have h := (le_div_iff₀ hpi).mpr h1
    linarith
  · have h := (div_lt_iff₀ hpi).mpr h2
    linarith

/-- The 1st-order Butterworth branch of the dispatch. -/
lemma calculateCrossover_b1 (rh rl f : ℝ) :
    calculateCrossover rh rl f CROSSOVER_TYPES.BUTTERWORTH_1ST =
      { highPass := [⟨"C1", (1 / ((2 * Real.pi * f) * rh)) * 1e6, "uF"⟩],
        lowPass := [⟨"L1", (rl / (2 * Real.pi * f)) * 1e3, "mH"⟩] } := rfl

/-- The 2nd-order Butterworth branch of the dispatch. -/
lemma calculateCrossover_b2 (rh rl f : ℝ) :
    calculateCrossover rh rl f CROSSOVER_TYPES.BUTTERWORTH_2ND =
      { highPass := [⟨"C1", (1 / (Real.sqrt 2 * (2 * Real.pi * f) * rh)) * 1e6, "uF"⟩,
                     ⟨"L1", (rh / (Real.sqrt 2 * (2 * Real.pi * f))) * 1e3, "mH"⟩],
        lowPass := [⟨"C2", (1 / (Real.sqrt 2 * (2 * Real.pi * f) * rl)) * 1e6, "uF"⟩,
                    ⟨"L2", (rl / (Real.sqrt 2 * (2 * Real.pi * f))) * 1e3, "mH"⟩] } := rfl

/-- The 2nd-order Linkwitz-Riley branch of the dispatch. -/
lemma calculateCrossover_lr2 (rh rl f : ℝ) :
    calculateCrossover rh rl f CROSSOVER_TYPES.LINKWITZ_RILEY_2ND =
      { highPass := [⟨"C1", (1 / (2 * (2 * Real.pi * f) * rh)) * 1e6, "uF"⟩,
                     ⟨"L1", (rh / (0.5 * (2 * Real.pi * f))) * 1e3, "mH"⟩],
        lowPass := [⟨"C2", (1 / (2 * (2 * Real.pi * f) * rl)) * 1e6, "uF"⟩,
                    ⟨"L2", (rl / (0.5 * (2 * Real.pi * f))) * 1e3, "mH"⟩] } := rfl

/-- The 2nd-order Bessel branch of the dispatch. -/
lemma calculateCrossover_bs2 (rh rl f : ℝ) :
    calculateCrossover rh rl f CROSSOVER_TYPES.BESSEL_2ND =
      { highPass := [⟨"C1", (1 / (Real.sqrt 3 * (2 * Real.pi * f) * rh)) * 1e6, "uF"⟩,
                     ⟨"L1", ((Real.sqrt 3 * rh) / (2 * Real.pi * f)) * 1e3, "mH"⟩],
        lowPass := [⟨"C2", (1 / (Real.sqrt 3 * (2 * Real.pi * f) * rl)) * 1e6, "uF"⟩,
                    ⟨"L2", ((Real.sqrt 3 * rl) / (2 * Real.pi * f)) * 1e3, "mH"⟩] } := rfl

/-- Claim C2: for every `rh`, `rl`, `f` and every type string that is not one
of the six recognized catalog labels, `calculateCrossover` returns a result
whose `highPass` and `lowPass` lists are both empty (the embedding is a total
function, so no exception is raised). -/
theorem calculateCrossover_unrecognized_empty (rh rl f : ℝ) (t : String)
    (h : t ∉ recognizedTypes) :
    calculateCrossover rh rl f t = { highPass := [], lowPass := [] } := by
  obtain ⟨h1, h2, h3, h4, h5, h6⟩ :
      t ≠ CROSSOVER_TYPES.BUTTERWORTH_1ST ∧ t ≠ CROSSOVER_TYPES.BUTTERWORTH_2ND ∧
      t ≠ CROSSOVER_TYPES.LINKWITZ_RILEY_2ND ∧ t ≠ CROSSOVER_TYPES.BESSEL_2ND ∧
      t ≠ CROSSOVER_TYPES.BUTTERWORTH_3RD ∧ t ≠ CROSSOVER_TYPES.LINKWITZ_RILEY_4TH := by
    simpa [recognizedTypes] using h
  unfold calculateCrossover
  rw [if_neg h1, if_neg h2, if_neg h3, if_neg h4, if_neg h5, if_neg h6]

theorem calculateCrossover_unrecognized_empty_witness :
    "Elliptic" ∉ recognizedTypes ∧
      calculateCrossover 8 8 3000 "Elliptic" = { highPass := [], lowPass := [] } :=
  ⟨by decide, calculateCrossover_unrecognized_empty 8 8 3000 "Elliptic" (by decide)⟩

/-- Claim C3: `calculate3Way` is exactly the stated composition of three
`calculateCrossover` calls with the same type: woofer is the low-pass at
`flz` with `rw`, tweeter the high-pass at `fhz` with `rt`, midrange the
concatenation of the high-pass at `flz` and the low-pass at `fhz` with `rm`;
hence the midrange length is the sum of those lengths and its first segment
is the `flz` high-pass exactly. -/
theorem calculate3Way_composition (rw rm rt flz fhz : ℝ) (t : String) :
    (calculate3Way rw rm rt flz fhz t).woofer = (calculateCrossover rw rw flz t).lowPass ∧
    (calculate3Way rw rm rt flz fhz t).tweeter = (calculateCrossover rt rt fhz t).highPass ∧
    (calculate3Way rw rm rt flz fhz t).midrange =
      (calculateCrossover rm rm flz t).highPass ++ (calculateCrossover rm rm fhz t).lowPass ∧
    (calculate3Way rw rm rt flz fhz t).midrange.length =
      (calculateCrossover rm rm flz t).highPass.length +
        (calculateCrossover rm rm fhz t).lowPass.length ∧
    (calculate3Way rw rm rt flz fhz t).midrange.take
        (calculateCrossover rm rm flz t).highPass.length =
      (calculateCrossover rm rm flz t).highPass := by
  refine ⟨rfl, rfl, rfl, ?_, ?_⟩
  · exact List.length_append _ _
  · exact List.take_left _ _

/-- Claim C10: the `highPass` list of `calculateCrossover` depends only on
`rh`, `f` and the type (not on `rl`), and symmetrically the `lowPass` list
depends only on `rl`, `f` and the type (not on `rh`). -/
theorem calculateCrossover_noninterference (rh rh2 rl rl2 f : ℝ) (t : String) :
    (calculateCrossover rh rl f t).highPass = (calculateCrossover rh rl2 f t).highPass ∧
    (calculateCrossover rh rl f t).lowPass = (calculateCrossover rh2 rl f t).lowPass := by
  unfold calculateCrossover
  constructor <;> (split_ifs <;> rfl)

/-- Claim C1: for strictly positive `rh`, `rl`, `f`, 1st-order Butterworth
returns exactly one high-pass component `C1`/`uF` of value `10^6/(2π·f·rh)`
and one low-pass component `L1`/`mH` of value `10^3·rl/(2π·f)`; at
`(8, 8, 3000)` the 2-digit formatting yields `C1 = "6.63"` and
`L1 = "0.42"`. -/
theorem butterworth1_spec (rh rl f : ℝ) (hrh : 0 < rh) (hrl : 0 < rl) (hf : 0 < f) :
    (calculateCrossover rh rl f CROSSOVER_TYPES.BUTTERWORTH_1ST).highPass =
      [⟨"C1", 10 ^ 6 / (2 * Real.pi * f * rh), "uF"⟩] ∧
    (calculateCrossover rh rl f CROSSOVER_TYPES.BUTTERWORTH_1ST).lowPass =
      [⟨"L1", 10 ^ 3 * rl / (2 * Real.pi * f), "mH"⟩] ∧
    ((calculateCrossover 8 8 3000 CROSSOVER_TYPES.BUTTERWORTH_1ST).highPass.map
        (fun c => (c.name, toFixed2 c.value, c.unit))) = [("C1", "6.63", "uF")] ∧
    ((calculateCrossover 8 8 3000 CROSSOVER_TYPES.BUTTERWORTH_1ST).lowPass.map
        (fun c => (c.name, toFixed2 c.value, c.unit))) = [("L1", "0.42", "mH")] := by
  have h1 := Real.pi_gt_d6
  have h2 := Real.pi_lt_d6
  refine ⟨?_, ?_, ?_, ?_⟩
  · rw [calculateCrossover_b1]
    simp only [List.cons.injEq, and_true, Component.mk.injEq, true_and]
    have hpi := Real.pi_ne_zero
    have hf2 := hf.ne'
    have hrh2 := hrh.ne'
    field_simp
    ring
  · rw [calculateCrossover_b1]
    simp only [List.cons.injEq, and_true, Component.mk.injEq, true_and]
    have hpi := Real.pi_ne_zero
    have hf2 := hf.ne'
    field_simp
    ring
  · rw [calculateCrossover_b1]
    simp only [List.map_cons, List.map_nil, List.cons.injEq, and_true, Prod.mk.injEq, true_and]
    unfold toFixed2
    rw [show (100 : ℝ) * ((1 / ((2 * Real.pi * 3000) * 8)) * 1e6) = (6250/3) / Real.pi by
      rw [eq_div_iff Real.pi_ne_zero]; field_simp; ring]
    rw [round_div_pi_eq (6250/3) 663 (by push_cast; nlinarith) (by push_cast; nlinarith)]
    decide
  · rw [calculateCrossover_b1]
    simp only [List.map_cons, List.map_nil, List.cons.injEq, and_true, Prod.mk.injEq, true_and]
    unfold toFixed2
    rw [show (100 : ℝ) * (((8:ℝ) / (2 * Real.pi * 3000)) * 1e3) = (400/3) / Real.pi by
      rw [eq_div_iff Real.pi_ne_zero]; field_simp; ring]
    rw [round_div_pi_eq (400/3) 42 (by push_cast; nlinarith) (by push_cast; nlinarith)]
    decide

theorem butterworth1_spec_witness :
    (0:ℝ) < 8 ∧ (0:ℝ) < 3000 ∧
    ((calculateCrossover 8 8 3000 CROSSOVER_TYPES.BUTTERWORTH_1ST).highPass =
      [⟨"C1", 10 ^ 6 / (2 * Real.pi * 3000 * 8), "uF"⟩] ∧
    (calculateCrossover 8 8 3000 CROSSOVER_TYPES.BUTTERWORTH_1ST).lowPass =
      [⟨"L1", 10 ^ 3 * 8 / (2 * Real.pi * 3000), "mH"⟩] ∧
    ((calculateCrossover 8 8 3000 CROSSOVER_TYPES.BUTTERWORTH_1ST).highPass.map
        (fun c => (c.name, toFixed2 c.value, c.unit))) = [("C1", "6.63", "uF")] ∧
    ((calculateCrossover 8 8 3000 CROSSOVER_TYPES.BUTTERWORTH_1ST).lowPass.map
        (fun c => (c.name, toFixed2 c.value, c.unit))) = [("L1", "0.42", "mH")]) :=
  ⟨by norm_num, by norm_num,
    butterworth1_spec 8 8 3000 (by norm_num) (by norm_num) (by norm_num)⟩

/-- Claim C6: for positive inputs, 4th-order Linkwitz-Riley returns the four
high-pass components `C1, C2, L3, L4` and four low-pass components
`L1, L2, C3, C4` with exactly the pre-scaled constants `84400/(f·rh)`,
`168800/(f·rh)`, `100·rh/f`, `200·rh/f`, `318·rl/f`, `159·rl/f`,
`212000/(f·rl)`, `106000/(f·rl)` in that order, with no additional `×10^6` or
`×10^3` scaling applied before the 2-digit formatting. -/
theorem linkwitzRiley4_spec (rh rl f : ℝ) (hrh : 0 < rh) (hrl : 0 < rl) (hf : 0 < f) :
    (calculateCrossover rh rl f CROSSOVER_TYPES.LINKWITZ_RILEY_4TH).highPass =
      [⟨"C1", 84400 / (f * rh), "uF"⟩, ⟨"C2", 168800 / (f * rh), "uF"⟩,
       ⟨"L3", 100 * rh / f, "mH"⟩, ⟨"L4", 200 * rh / f, "mH"⟩] ∧
    (calculateCrossover rh rl f CROSSOVER_TYPES.LINKWITZ_RILEY_4TH).lowPass =
      [⟨"L1", 318 * rl / f, "mH"⟩, ⟨"L2", 159 * rl / f, "mH"⟩,
       ⟨"C3", 212000 / (f * rl), "uF"⟩, ⟨"C4", 106000 / (f * rl), "uF"⟩] :=
  ⟨rfl, rfl⟩

theorem linkwitzRiley4_spec_witness :
    (0:ℝ) < 8 ∧ (0:ℝ) < 3000 ∧
    ((calculateCrossover 8 8 3000 CROSSOVER_TYPES.LINKWITZ_RILEY_4TH).highPass =
      [⟨"C1", 84400 / (3000 * 8), "uF"⟩, ⟨"C2", 168800 / (3000 * 8), "uF"⟩,
       ⟨"L3", 100 * 8 / 3000, "mH"⟩, ⟨"L4", 200 * 8 / 3000, "mH"⟩] ∧
    (calculateCrossover 8 8 3000 CROSSOVER_TYPES.LINKWITZ_RILEY_4TH).lowPass =
      [⟨"L1", 318 * 8 / 3000, "mH"⟩, ⟨"L2", 159 * 8 / 3000, "mH"⟩,
       ⟨"C3", 212000 / (3000 * 8), "uF"⟩, ⟨"C4", 106000 / (3000 * 8), "uF"⟩]) :=
  ⟨by norm_num, by norm_num,
    linkwitzRiley4_spec 8 8 3000 (by norm_num) (by norm_num) (by norm_num)⟩

/-- Claim C9: for positive `re`, `le`, `calculateZobel` returns
`rz = 1.25·re` and `cz = ((le/1000)/rz²)·10^6`; at `(8, 0.5)` the 2-digit
formatting yields `rz = "10.00"` and `cz = "5.00"`. -/
theorem zobel_spec (re le : ℝ) (hre : 0 < re) (hle : 0 < le) :
    (calculateZobel re le).rz = 1.25 * re ∧
    (calculateZobel re le).cz = ((le / 1000) / (1.25 * re) ^ 2) * 1e6 ∧
    toFixed2 (calculateZobel 8 0.5).rz = "10.00" ∧
    toFixed2 (calculateZobel 8 0.5).cz = "5.00" := by
  refine ⟨rfl, rfl, ?_, ?_⟩
  · rw [show (calculateZobel 8 0.5).rz = 10 by norm_num [calculateZobel]]
    unfold toFixed2
    rw [show round ((100:ℝ) * 10) = 1000 by norm_num [round_eq]]
    decide
  · rw [show (calculateZobel 8 0.5).cz = 5 by norm_num [calculateZobel]]
    unfold toFixed2
    rw [show round ((100:ℝ) * 5) = 500 by norm_num [round_eq]]
    decide

theorem zobel_spec_witness :
    (0:ℝ) < 8 ∧ (0:ℝ) < 0.5 ∧
    ((calculateZobel 8 0.5).rz = 1.25 * 8 ∧
    (calculateZobel 8 0.5).cz = (((0.5:ℝ) / 1000) / (1.25 * 8) ^ 2) * 1e6 ∧
    toFixed2 (calculateZobel 8 0.5).rz = "10.00" ∧
    toFixed2 (calculateZobel 8 0.5).cz = "5.00") :=
  ⟨by norm_num, by norm_num, zobel_spec 8 0.5 (by norm_num) (by norm_num)⟩

/-- Claim C7: for positive `rh`, `rl`, `f` and each of the three 2nd-order
types, every unrounded component value computed at `2·f` is exactly half the
corresponding value computed at `f` (compared on the pre-formatting values,
position by position). -/
theorem doubling_frequency_halves_values (rh rl f : ℝ)
    (hrh : 0 < rh) (hrl : 0 < rl) (hf : 0 < f) (t : String)
    (ht : t ∈ [CROSSOVER_TYPES.BUTTERWORTH_2ND, CROSSOVER_TYPES.LINKWITZ_RILEY_2ND,
               CROSSOVER_TYPES.BESSEL_2ND]) :
    (calculateCrossover rh rl (2 * f) t).highPass.map Component.value =
      (calculateCrossover rh rl f t).highPass.map (fun c => c.value / 2) ∧
    (calculateCrossover rh rl (2 * f) t).lowPass.map Component.value =
      (calculateCrossover rh rl f t).lowPass.map (fun c => c.value / 2) := by
  have hpi := Real.pi_ne_zero
  have hf2 := hf.ne'
  have hrh2 := hrh.ne'
  have hrl2 := hrl.ne'
  have hs2 : Real.sqrt 2 ≠ 0 := by positivity
  have hs3 : Real.sqrt 3 ≠ 0 := by positivity
  simp only [List.mem_cons, List.mem_singleton, List.not_mem_nil, or_false] at ht
  rcases ht with h | h | h <;> subst h
  · rw [calculateCrossover_b2, calculateCrossover_b2]
    simp only [List.map_cons, List.map_nil, List.cons.injEq, and_true]
    refine ⟨⟨?_, ?_⟩, ?_, ?_⟩ <;>
      (field_simp <;> (first | (left; first | ring | exact True.intro) | ring))
  · rw [calculateCrossover_lr2, calculateCrossover_lr2]
    simp only [List.map_cons, List.map_nil, List.cons.injEq, and_true]
    refine ⟨⟨?_, ?_⟩, ?_, ?_⟩ <;>
      (field_simp <;> (first | (left; first | ring | exact True.intro) | ring))
  · rw [calculateCrossover_bs2, calculateCrossover_bs2]
    simp only [List.map_cons, List.map_nil, List.cons.injEq, and_true]
    refine ⟨⟨?_, ?_⟩, ?_, ?_⟩ <;>
      (field_simp <;> (first | (left; first | ring | exact True.intro) | ring))

theorem doubling_frequency_halves_values_witness :
    (0:ℝ) < 8 ∧ (0:ℝ) < 1000 ∧
    CROSSOVER_TYPES.BUTTERWORTH_2ND ∈
      [CROSSOVER_TYPES.BUTTERWORTH_2ND, CROSSOVER_TYPES.LINKWITZ_RILEY_2ND,
       CROSSOVER_TYPES.BESSEL_2ND] ∧
    ((calculateCrossover 8 8 (2 * 1000) CROSSOVER_TYPES.BUTTERWORTH_2ND).highPass.map
        Component.value =
      (calculateCrossover 8 8 1000 CROSSOVER_TYPES.BUTTERWORTH_2ND).highPass.map
        (fun c => c.value / 2) ∧
    (calculateCrossover 8 8 (2 * 1000) CROSSOVER_TYPES.BUTTERWORTH_2ND).lowPass.map
        Component.value =
      (calculateCrossover 8 8 1000 CROSSOVER_TYPES.BUTTERWORTH_2ND).lowPass.map
        (fun c => c.value / 2)) :=
  ⟨by norm_num, by norm_num, by decide,
    doubling_frequency_halves_values 8 8 1000 (by norm_num) (by norm_num) (by norm_num)
      CROSSOVER_TYPES.BUTTERWORTH_2ND (by decide)⟩

/-- Claim C8: for `rh > 0` and `db > 0`, `calculateLPad` computes
`k = 10^(db/20)`, `r1 = rh·(k−1)/k`, `r2 = rh/(k−1)`, and the unrounded
values satisfy `0 < r1 < rh` and `0 < r2`. -/
theorem lpad_spec (rh db : ℝ) (hrh : 0 < rh) (hdb : 0 < db) :
    (calculateLPad rh db).r1 = rh * ((10:ℝ) ^ (db / 20) - 1) / (10:ℝ) ^ (db / 20) ∧
    (calculateLPad rh db).r2 = rh / ((10:ℝ) ^ (db / 20) - 1) ∧
    0 < (calculateLPad rh db).r1 ∧
    (calculateLPad rh db).r1 < rh ∧
    0 < (calculateLPad rh db).r2 := by
  have hk : 1 < (10:ℝ) ^ (db / 20) := by
    rw [Real.one_lt_rpow_iff_of_pos (by norm_num)]
    exact Or.inl ⟨by norm_num, by positivity⟩
  have hk0 : 0 < (10:ℝ) ^ (db / 20) := by linarith
  refine ⟨rfl, rfl, ?_, ?_, ?_⟩
  · show 0 < rh * ((10:ℝ) ^ (db / 20) - 1) / (10:ℝ) ^ (db / 20)
    apply div_pos (mul_pos hrh (by linarith)) hk0
  · show rh * ((10:ℝ) ^ (db / 20) - 1) / (10:ℝ) ^ (db / 20) < rh
    rw [mul_div_assoc]
    exact mul_lt_of_lt_one_right hrh ((div_lt_one hk0).mpr (by linarith))
  · exact div_pos hrh (by linarith)

theorem lpad_spec_witness :
    (0:ℝ) < 8 ∧ (0:ℝ) < 6 ∧
    ((calculateLPad 8 6).r1 = 8 * ((10:ℝ) ^ ((6:ℝ) / 20) - 1) / (10:ℝ) ^ ((6:ℝ) / 20) ∧
    (calculateLPad 8 6).r2 = 8 / ((10:ℝ) ^ ((6:ℝ) / 20) - 1) ∧
    0 < (calculateLPad 8 6).r1 ∧
    (calculateLPad 8 6).r1 < 8 ∧
    0 < (calculateLPad 8 6).r2) :=
  ⟨by norm_num, by norm_num, lpad_spec 8 6 (by norm_num) (by norm_num)⟩

/-- First four characters of the critical resonance hazard message. -/
lemma take4_criticalMessage (f fs : ℚ) :
    (criticalMessage f fs).data.take 4 = ['C', 'R', 'I', 'T'] := by
  unfold criticalMessage
  simp only [String.data_append, List.append_assoc]
  rw [List.take_append_of_le_length (by decide)]
  decide

/-- First four characters of the slope hazard message. -/
lemma take4_slopeMessage (f : ℚ) :
    (slopeMessage f).data.take 4 = ['D', 'A', 'N', 'G'] := by
  unfold slopeMessage
  simp only [String.data_append, List.append_assoc]
  rw [List.take_append_of_le_length (by decide)]
  decide

/-- The two hazard messages are distinct for all interpolated values. -/
lemma criticalMessage_ne_slopeMessage (f fs g : ℚ) :
    criticalMessage f fs ≠ slopeMessage g := by
  intro h
  have h4 := congrArg (fun s => s.data.take 4) h
  simp only [take4_criticalMessage, take4_slopeMessage] at h4
  exact absurd h4 (by decide)

/-- Symmetric form of `criticalMessage_ne_slopeMessage`. -/
lemma slopeMessage_ne_criticalMessage (g f fs : ℚ) :
    slopeMessage g ≠ criticalMessage f fs :=
  (criticalMessage_ne_slopeMessage f fs g).symm

/-- Evaluation of `validateSafety` at `f = 1500`, `fs = 1000`, 2nd-order
Butterworth: exactly the critical hazard fires. -/
lemma validateSafety_concrete_hazard :
    validateSafety 8 8 1500 1000 CROSSOVER_TYPES.BUTTERWORTH_2ND =
      [⟨"hazard", criticalMessage 1500 1000⟩] := by
  norm_num [validateSafety]
  all_goals decide

/-- Evaluation of `validateSafety` at `f = 2200`, `fs = 1000`, 2nd-order
Butterworth: exactly the caution warning fires. -/
lemma validateSafety_concrete_caution :
    validateSafety 8 8 2200 1000 CROSSOVER_TYPES.BUTTERWORTH_2ND =
      [⟨"warning", cautionMessage⟩] := by
  norm_num [validateSafety]
  all_goals decide

/-- The model rendering of the integral number 2200. -/
lemma qRender_2200 : qRender 2200 = "2200" := by
  rw [qRender, if_pos (show (2200:ℚ).den = 1 by norm_num)]
  rw [show (2200:ℚ).num = 2200 by norm_num]
  decide

/-- The model rendering of the integral number 1000. -/
lemma qRender_1000 : qRender 1000 = "1000" := by
  rw [qRender, if_pos (show (1000:ℚ).den = 1 by norm_num)]
  rw [show (1000:ℚ).num = 1000 by norm_num]
  decide

/-- Claim C4: `validateSafety` emits at most one frequency-related entry —
the critical hazard is in the output exactly when `fs` is truthy and
`f < 2·fs`, the caution warning exactly when `fs` is truthy, `f ≥ 2·fs` and
`f < 2.5·fs` — and, independently, the slope hazard exactly when the type is
1st-order Butterworth and `f < 3000`; the output length is at most 2, and at
`fs = 1000`, `f = 1500`, 2nd-order Butterworth the output is exactly one
hazard and no slope warning. -/
theorem validateSafety_spec (rh rl f fs : ℚ) (t : String) :
    (validateSafety rh rl f fs t).length ≤ 2 ∧
    ((⟨"hazard", criticalMessage f fs⟩ : Warning) ∈ validateSafety rh rl f fs t ↔
      fs ≠ 0 ∧ f < 2 * fs) ∧
    ((⟨"warning", cautionMessage⟩ : Warning) ∈ validateSafety rh rl f fs t ↔
      fs ≠ 0 ∧ ¬ f < 2 * fs ∧ f < 2.5 * fs) ∧
    ((⟨"hazard", slopeMessage f⟩ : Warning) ∈ validateSafety rh rl f fs t ↔
      t = CROSSOVER_TYPES.BUTTERWORTH_1ST ∧ f < 3000) ∧
    validateSafety 8 8 1500 1000 CROSSOVER_TYPES.BUTTERWORTH_2ND =
      [⟨"hazard", criticalMessage 1500 1000⟩] := by
  refine ⟨?_, ?_, ?_, ?_, validateSafety_concrete_hazard⟩ <;>
  · by_cases hfs : fs = 0 <;> by_cases ha : f < 2 * fs <;> by_cases hb : f < 2.5 * fs <;>
      by_cases ht1 : t = CROSSOVER_TYPES.BUTTERWORTH_1ST <;> by_cases hf3 : f < 3000 <;>
      simp [validateSafety, hfs, ha, hb, ht1, hf3, Warning.mk.injEq,
        criticalMessage_ne_slopeMessage, slopeMessage_ne_criticalMessage] <;>
      tauto

set_option maxRecDepth 4000 in
/-- Claim C5 counterexample: at `f = 2200`, `fs = 1000`, 2nd-order
Butterworth, `validateSafety` returns exactly the caution warning, whose
message contains neither the decimal rendering of `f` nor that of `fs` —
refuting the claim that every returned message embeds both values. -/
theorem validateSafety_messages_counterexample :
    validateSafety 8 8 2200 1000 CROSSOVER_TYPES.BUTTERWORTH_2ND =
      [⟨"warning", cautionMessage⟩] ∧
    ¬ strContains cautionMessage (qRender 2200) ∧
    ¬ strContains cautionMessage (qRender 1000) := by
  refine ⟨validateSafety_concrete_caution, ?_, ?_⟩
  · rw [qRender_2200]
    decide
  · rw [qRender_1000]
    decide

/-- Claim C5 as amended: every message returned by `validateSafety` is one of
the three literal templates — the critical hazard message, which embeds the
decimal renderings of both `f` and `fs`; the fixed caution message, which
embeds neither; or the slope hazard message, which embeds `f` only. -/
theorem validateSafety_messages_amended (rh rl f fs : ℚ) (t : String) (w : Warning)
    (hw : w ∈ validateSafety rh rl f fs t) :
    (w.message = criticalMessage f fs ∧ strContains w.message (qRender f) ∧
      strContains w.message (qRender fs)) ∨
    w.message = cautionMessage ∨
    (w.message = slopeMessage f ∧ strContains w.message (qRender f)) := by
  have hc1 : strContains (criticalMessage f fs) (qRender f) := by
    refine ⟨"CRITICAL: Crossover frequency (".data,
      ("Hz) is less than 2x Tweeter Fs (" ++ qRender fs ++
        "Hz). This risk damaging the tweeter at high volumes.").data, ?_⟩
    simp [criticalMessage, String.data_append]
  have hc2 : strContains (criticalMessage f fs) (qRender fs) := by
    refine ⟨("CRITICAL: Crossover frequency (" ++ qRender f ++
      "Hz) is less than 2x Tweeter Fs (").data,
      "Hz). This risk damaging the tweeter at high volumes.".data, ?_⟩
    simp [criticalMessage, String.data_append]
  have hs1 : strContains (slopeMessage f) (qRender f) := by
    refine ⟨"DANGER: 1st-order slope is very shallow. At ".data,
      "Hz, this provides minimal protection for most tweeters. Use at least 2nd-order or raise Fc.".data, ?_⟩
    simp [slopeMessage, String.data_append]
  unfold validateSafety at hw
  rcases List.mem_append.mp hw with h | h
  · split_ifs at h with h1 h2
    · simp only [List.mem_singleton] at h
      subst h
      exact Or.inl ⟨rfl, hc1, hc2⟩
    · simp only [List.mem_singleton] at h
      subst h
      exact Or.inr (Or.inl rfl)
    · simp at h
  · split_ifs at h with h3
    · simp only [List.mem_singleton] at h
      subst h
      exact Or.inr (Or.inr ⟨rfl, hs1⟩)
    · simp at h

theorem validateSafety_messages_amended_witness :
    ((⟨"warning", cautionMessage⟩ : Warning) ∈
      validateSafety 8 8 2200 1000 CROSSOVER_TYPES.BUTTERWORTH_2ND) ∧
    (((⟨"warning", cautionMessage⟩ : Warning).message = criticalMessage 2200 1000 ∧
        strContains (⟨"warning", cautionMessage⟩ : Warning).message (qRender 2200) ∧
        strContains (⟨"warning", cautionMessage⟩ : Warning).message (qRender 1000)) ∨
      (⟨"warning", cautionMessage⟩ : Warning).message = cautionMessage ∨
      ((⟨"warning", cautionMessage⟩ : Warning).message = slopeMessage 2200 ∧
        strContains (⟨"warning", cautionMessage⟩ : Warning).message (qRender 2200))) :=
  ⟨by rw [validateSafety_concrete_caution]; exact List.mem_singleton.mpr rfl,
   validateSafety_messages_amended 8 8 2200 1000 CROSSOVER_TYPES.BUTTERWORTH_2ND _
     (by rw [validateSafety_concrete_caution]; exact List.mem_singleton.mpr rfl)⟩
